import Mathlib

/-!
Shallow embedding of the data-access and service layer of the `My_X`
micro-blogging backend (`src/My_X/app`), together with proofs of the
specification claims about it.

The relational state (PostgreSQL tables, plus the media directory of the
file system) is modelled as lists of rows inside a single `DB` value.
Repository methods (`app/api/tweet/repositoryes.py`,
`app/api/user/repositoryes.py`) become pure functions over `DB`;
service methods (`app/api/tweet/service.py`, `app/api/user/service.py`)
become functions returning the post-state together with an
`Except ApiError _` result mirroring the raised `HTTPException`s,
storage-constraint failures and file-system errors.
-/

namespace MyX

/-- Row of the `users` table (`models.py`, class `Users`). -/
structure UserRow where
  id : Nat
  name : String
  deriving Repr, DecidableEq

/-- Row of the `tweets` table (`models.py`, class `Tweets`). -/
structure TweetRow where
  id : Nat
  userId : Nat
  content : String
  createdAt : Nat
  deriving Repr, DecidableEq

/-- Row of the `media` table (`models.py`, class `Media`). -/
structure MediaRow where
  id : Nat
  filePath : String
  userId : Nat
  deriving Repr, DecidableEq

/-- Row of the `tweet_media` association table (`models.py`, class `TweetMedia`). -/
structure TweetMediaRow where
  id : Nat
  tweetId : Nat
  mediaId : Nat
  deriving Repr, DecidableEq

/-- Row of the `likes` table (`models.py`, class `Like`). -/
structure LikeRow where
  id : Nat
  tweetId : Nat
  userId : Nat
  deriving Repr, DecidableEq

/-- Row of the `followers` table (`models.py`, class `Follower`). -/
structure FollowerRow where
  id : Nat
  followerId : Nat
  followeeId : Nat
  deriving Repr, DecidableEq

/-- Database plus file-system state seen by one request.  `files` is the
set of stored media files (the upload directory); `clock` stands for the
database server clock used for `server_default=func.now()` columns. -/
structure DB where
  users : List UserRow
  tweets : List TweetRow
  media : List MediaRow
  tweetMedia : List TweetMediaRow
  likes : List LikeRow
  followers : List FollowerRow
  files : List String
  clock : Nat
  deriving Repr, DecidableEq

/-- Errors surfaced by a service call: `http s d` is a raised
`HTTPException(status_code=s, detail=d)`; `storage` is an uncategorized
backing-store fault (e.g. an `IntegrityError` from a violated unique
constraint, or `MultipleResultsFound` from `scalar_one_or_none`);
`fileGuard` is the explicit `raise FileNotFoundError("File not found")`
guard in `del_tweet`; `osRemove p` is the `FileNotFoundError` that
`os.remove(p)` itself raises when `p` does not exist. -/
inductive ApiError where
  | http (status : Nat) (detail : String)
  | storage (msg : String)
  | fileGuard
  | osRemove (path : String)
  deriving Repr, DecidableEq

/-- Store operations performed by the user service, in program order;
used to express that a guard fires before any lookup or store read. -/
inductive StoreEvent where
  | userGetById (id : Nat)
  | followGetSubscribe (followerId followeeId : Nat)
  | followAdd
  | followDelete
  deriving Repr, DecidableEq

/-- Characters of `p` after its last `'/'` (tail-recursive accumulator). -/
def basenameAux : List Char → List Char → List Char
  | [], acc => acc.reverse
  | c :: rest, acc => if c = '/' then basenameAux rest [] else basenameAux rest (c :: acc)

/-- Model of `os.path.basename` for the forward-slash paths this code builds. -/
def basename (p : String) : String :=
  String.mk (basenameAux p.toList [])

/-- Whether the path starts with `'/'` (is absolute). -/
def startsWithSlash (s : String) : Bool :=
  match s.toList with
  | '/' :: _ => true
  | _ => false

/-- Whether the path ends with `'/'`. -/
def endsWithSlash (s : String) : Bool :=
  match s.toList.getLast? with
  | some c => c == '/'
  | none => false

/-- Model of `os.path.join` on two components (second component absolute wins). -/
def osPathJoin (a b : String) : String :=
  if startsWithSlash b then b
  else if a.toList.isEmpty || endsWithSlash a then a ++ b
  else a ++ "/" ++ b

/-- Next autoincrement surrogate key for a table whose current keys are `ids`. -/
def freshId (ids : List Nat) : Nat :=
  ids.foldr (fun i m => max (i + 1) m) 1

/-- SQLAlchemy `Result.scalar_one_or_none()`: `none` on zero rows, the row on
exactly one, and a `MultipleResultsFound` storage error otherwise. -/
def scalarOneOrNone {α : Type} (l : List α) : Except ApiError (Option α) :=
  match l with
  | [] => Except.ok none
  | [a] => Except.ok (some a)
  | _ :: _ :: _ => Except.error (ApiError.storage "MultipleResultsFound")

namespace UserRepository

/-- Embeds `UserRepository.get_by_id` (`app/api/user/repositoryes.py`):
`select(Users).where(Users.id == user_id)` then `scalar_one_or_none()`. -/
def get_by_id (db : DB) (user_id : Nat) : Except ApiError (Option UserRow) :=
  scalarOneOrNone (db.users.filter (fun usr => usr.id == user_id))

end UserRepository

namespace FollowerRepository

/-- Embeds `FollowerRepository.get_subscribe`: equality filters over `Follower`
(the keyword arguments become the predicate `p`) then `scalar_one_or_none()`. -/
def get_subscribe (db : DB) (p : FollowerRow → Bool) :
    Except ApiError (Option FollowerRow) :=
  scalarOneOrNone (db.followers.filter p)

/-- Embeds `FollowerRepository.filter`: equality filters then `scalars().all()`. -/
def filter (db : DB) (p : FollowerRow → Bool) : List FollowerRow :=
  db.followers.filter p

/-- Embeds `FollowerRepository.add`: `session.add` + `commit`.  The commit enforces
the `unique_follower_followee` constraint of `models.py` and raises an
`IntegrityError` (an uncategorized storage error) on a duplicate
(follower_id, followee_id) pair. -/
def add (db : DB) (followerId followeeId : Nat) : Except ApiError DB :=
  if db.followers.any (fun f => f.followerId == followerId && f.followeeId == followeeId) then
    Except.error (ApiError.storage "IntegrityError: unique_follower_followee")
  else
    Except.ok { db with
      followers := db.followers ++
        [{ id := freshId (db.followers.map (fun f => f.id)),
           followerId := followerId, followeeId := followeeId }] }

/-- Embeds `FollowerRepository.delete`: `session.delete` + `commit` (deletes the
given row by primary key). -/
def delete (db : DB) (f : FollowerRow) : DB :=
  { db with followers := db.followers.filter (fun g => g.id != f.id) }

end FollowerRepository

/-- The `Tweets.likes_count` hybrid expression (`models.py`):
`select(func.count(Like.id)).where(Like.tweet_id == cls.id)` — a live
aggregate over the `likes` table of the current state, not a stored column. -/
def likesCount (db : DB) (tweetId : Nat) : Nat :=
  (db.likes.filter (fun l => l.tweetId == tweetId)).length

/-- The feed ordering used by `TweetServices.get_tweets`:
`order_by=[Tweets.likes_count.desc(), Tweets.created_at.desc()]`.
`FeedLE db a b` says `a` may be listed no later than `b`: `a` has strictly
more likes, or equally many and a creation time at least as large.  SQL
leaves the relative order of rows with equal sort keys unspecified; the
embedding resolves such ties with a deterministic insertion sort, and
every ordering theorem that depends on tie order assumes distinct keys. -/
def FeedLE (db : DB) (a b : TweetRow) : Prop :=
  likesCount db b.id < likesCount db a.id ∨
    (likesCount db a.id = likesCount db b.id ∧ b.createdAt ≤ a.createdAt)

instance (db : DB) : DecidableRel (FeedLE db) := fun a b => by
  unfold FeedLE; infer_instance

instance (db : DB) : IsTotal TweetRow (FeedLE db) := by
  constructor; intro a b; unfold FeedLE; omega

instance (db : DB) : IsTrans TweetRow (FeedLE db) := by
  constructor; intro a b c; unfold FeedLE; omega

namespace TweetRepository

/-- Embeds `TweetRepository.get_by_id`: `select(Tweets).where(Tweets.id == tweet_id)`
then `scalar_one_or_none()`. -/
def get_by_id (db : DB) (tweet_id : Nat) : Except ApiError (Option TweetRow) :=
  scalarOneOrNone (db.tweets.filter (fun t => t.id == tweet_id))

/-- Embeds `TweetRepository.filter`: the query
`select(Tweets).outerjoin(Like).group_by(Tweets.id)` yields one row per
tweet; `pred` combines the equality keyword filters and the
`custom_filters`; `orderByFeed` is true when the caller passes the
likes/recency `order_by`; `off`/`lim` are `.offset()`/`.limit()`, applied
in that order after ordering.  Result of `scalars().all()`: a list. -/
def filter (db : DB) (pred : TweetRow → Bool) (orderByFeed : Bool)
    (off lim : Option Nat) : List TweetRow :=
  let q0 := db.tweets.filter pred
  let q1 := if orderByFeed then List.insertionSort (FeedLE db) q0 else q0
  let q2 := match off with
    | none => q1
    | some o => q1.drop o
  match lim with
  | none => q2
  | some l => q2.take l

/-- Embeds `TweetRepository.add`: `session.add` + `commit` + `refresh`; the commit
assigns the autoincrement id, `refresh` makes it visible to the caller. -/
def add (db : DB) (userId : Nat) (content : String) : DB × TweetRow :=
  let t : TweetRow :=
    { id := freshId (db.tweets.map (fun s => s.id)),
      userId := userId, content := content, createdAt := db.clock }
  ({ db with tweets := db.tweets ++ [t] }, t)

/-- Embeds `TweetRepository.delete`: `session.delete` + `commit`.  The
`cascade="all, delete"` annotations on `Tweets.media` and `Tweets.likes`
(`models.py`) delete the tweet's `TweetMedia` and `Like` rows with it. -/
def delete (db : DB) (t : TweetRow) : DB :=
  { db with
    tweets := db.tweets.filter (fun s => s.id != t.id),
    tweetMedia := db.tweetMedia.filter (fun tm => tm.tweetId != t.id),
    likes := db.likes.filter (fun l => l.tweetId != t.id) }

end TweetRepository

namespace MediaRepository

/-- Embeds `MediaRepository.filter`: equality/custom filters then `scalars().all()`. -/
def filter (db : DB) (p : MediaRow → Bool) : List MediaRow :=
  db.media.filter p

/-- Embeds `MediaRepository.delete`: `session.delete` + `commit`; the
`cascade="all, delete"` on `Media.tweet_media` removes any remaining
association rows for this media. -/
def delete (db : DB) (m : MediaRow) : DB :=
  { db with
    media := db.media.filter (fun n => n.id != m.id),
    tweetMedia := db.tweetMedia.filter (fun tm => tm.mediaId != m.id) }

end MediaRepository

namespace TweetMediaRepository

/-- Embeds `TweetMediaRepository.filter`: equality filters then `scalars().first()` —
the first matching row, or `none` when there is no match. -/
def filter (db : DB) (p : TweetMediaRow → Bool) : Option TweetMediaRow :=
  (db.tweetMedia.filter p).head?

/-- Autoincrement id assignment for a bulk insert of (tweet_id, media_id)
pairs, starting from `start`. -/
def withFreshIds (start : Nat) (recs : List (Nat × Nat)) : List TweetMediaRow :=
  match recs with
  | [] => []
  | (t, m) :: rest =>
      { id := start, tweetId := t, mediaId := m } :: withFreshIds (start + 1) rest

/-- Embeds `TweetMediaRepository.add_all`: `session.add_all` + `commit` for a list
of `TweetMedia(tweet_id=..., media_id=...)` records. -/
def add_all (db : DB) (recs : List (Nat × Nat)) : DB :=
  { db with
    tweetMedia := db.tweetMedia ++
      withFreshIds (freshId (db.tweetMedia.map (fun tm => tm.id))) recs }

end TweetMediaRepository

namespace LikeRepository

/-- Embeds `LikeRepository.filter`: equality filters over `Like` then
`scalar_one_or_none()`. -/
def filter (db : DB) (p : LikeRow → Bool) : Except ApiError (Option LikeRow) :=
  scalarOneOrNone (db.likes.filter p)

/-- Embeds `LikeRepository.add`: `session.add` + `commit`.  The commit enforces the
`unique_like_tweet` constraint of `models.py` and raises an `IntegrityError`
on a duplicate (tweet_id, user_id) pair. -/
def add (db : DB) (tweetId userId : Nat) : Except ApiError DB :=
  if db.likes.any (fun l => l.tweetId == tweetId && l.userId == userId) then
    Except.error (ApiError.storage "IntegrityError: unique_like_tweet")
  else
    Except.ok { db with
      likes := db.likes ++
        [{ id := freshId (db.likes.map (fun l => l.id)),
           tweetId := tweetId, userId := userId }] }

/-- Embeds `LikeRepository.delete`: `session.delete` + `commit` (by primary key). -/
def delete (db : DB) (l : LikeRow) : DB :=
  { db with likes := db.likes.filter (fun k => k.id != l.id) }

end LikeRepository

instance {ε α : Type} [DecidableEq ε] [DecidableEq α] : DecidableEq (Except ε α) := fun a b =>
  match a, b with
  | Except.ok x, Except.ok y =>
      if h : x = y then isTrue (by rw [h]) else isFalse (by intro hc; cases hc; exact h rfl)
  | Except.error x, Except.error y =>
      if h : x = y then isTrue (by rw [h]) else isFalse (by intro hc; cases hc; exact h rfl)
  | Except.ok _, Except.error _ => isFalse (by intro hc; cases hc)
  | Except.error _, Except.ok _ => isFalse (by intro hc; cases hc)

/-- Outcome of a user-service call: the store operations performed in
program order, the post-state (equal to the input state when the call
raises before any write, or when a failed commit is rolled back), and the
result or raised error. -/
structure UserOpResult where
  events : List StoreEvent
  db : DB
  result : Except ApiError Unit
  deriving Repr, DecidableEq

namespace UserServices

/-- Embeds `UserServices.add_subscribe` (`app/api/user/service.py`): reject
self-subscription with 409 before any store access; 404 when the target
user does not exist; otherwise construct the `Follower` edge and hand it
to `FollowerRepository.add` directly — the method performs no lookup of an
existing (follower, followee) edge, so a duplicate surfaces only as the
storage-layer `IntegrityError` from the unique constraint. -/
def add_subscribe (db : DB) (u : UserRow) (id : Nat) : UserOpResult :=
  if id = u.id then
    { events := [], db := db,
      result := Except.error (ApiError.http 409 "You can't subscribe to yourself") }
  else
    match UserRepository.get_by_id db id with
    | Except.error e =>
        { events := [StoreEvent.userGetById id], db := db, result := Except.error e }
    | Except.ok none =>
        { events := [StoreEvent.userGetById id], db := db,
          result := Except.error (ApiError.http 404 "User not found") }
    | Except.ok (some _) =>
        match FollowerRepository.add db u.id id with
        | Except.error e =>
            { events := [StoreEvent.userGetById id, StoreEvent.followAdd],
              db := db, result := Except.error e }
        | Except.ok db1 =>
            { events := [StoreEvent.userGetById id, StoreEvent.followAdd],
              db := db1, result := Except.ok () }

/-- Embeds `UserServices.delete_subscribe`: reject self-unsubscription with 409
before any store access; 404 when the target user does not exist; 404 when
no (follower=caller, followee=target) edge exists; otherwise delete the
edge found by `get_subscribe`. -/
def delete_subscribe (db : DB) (u : UserRow) (id : Nat) : UserOpResult :=
  if id = u.id then
    { events := [], db := db,
      result := Except.error (ApiError.http 409 "You can't unsubscribe from yourself") }
  else
    match UserRepository.get_by_id db id with
    | Except.error e =>
        { events := [StoreEvent.userGetById id], db := db, result := Except.error e }
    | Except.ok none =>
        { events := [StoreEvent.userGetById id], db := db,
          result := Except.error (ApiError.http 404 "User not found") }
    | Except.ok (some _) =>
        match FollowerRepository.get_subscribe db
            (fun f => f.followerId == u.id && f.followeeId == id) with
        | Except.error e =>
            { events := [StoreEvent.userGetById id, StoreEvent.followGetSubscribe u.id id],
              db := db, result := Except.error e }
        | Except.ok none =>
            { events := [StoreEvent.userGetById id, StoreEvent.followGetSubscribe u.id id],
              db := db,
              result := Except.error (ApiError.http 404 "You haven't subscribed to this user yet") }
        | Except.ok (some f) =>
            { events := [StoreEvent.userGetById id, StoreEvent.followGetSubscribe u.id id,
                         StoreEvent.followDelete],
              db := FollowerRepository.delete db f, result := Except.ok () }

end UserServices

/-- Outcome of a tweet-service call that returns `{"result": True}`. -/
structure TweetOpResult where
  db : DB
  result : Except ApiError Unit
  deriving Repr, DecidableEq

/-- Outcome of `add_new_tweet`, whose success value is the new tweet id. -/
structure CreateTweetResult where
  db : DB
  result : Except ApiError Nat
  deriving Repr, DecidableEq

/-- The `TweetCreate` request schema (`app/api/tweet/schemas.py`). -/
structure TweetCreate where
  tweet_data : String
  tweet_media_ids : Option (List Nat)
  deriving Repr, DecidableEq

/-- The list behind `tweet.tweet_media_ids`; Python treats `None` and `[]`
identically here (both falsy in `if tweet.tweet_media_ids:`). -/
def idsOf : Option (List Nat) → List Nat
  | none => []
  | some l => l

namespace TweetServices

/-- Embeds `TweetServices.add_new_tweet` (`app/api/tweet/service.py`): when media
ids were supplied, fetch the media rows with
`Media.id.in_(ids) ∧ Media.user_id == user.id`; if the row count differs
from the id count, raise 400 before anything is created; otherwise create
the tweet and, when media rows were fetched, bulk-insert one `TweetMedia`
row per fetched media row. -/
def add_new_tweet (db : DB) (u : UserRow) (tw : TweetCreate) : CreateTweetResult :=
  let ids := idsOf tw.tweet_media_ids
  let media_files : List MediaRow :=
    if ids.isEmpty then []
    else MediaRepository.filter db (fun m => ids.contains m.id && m.userId == u.id)
  if !ids.isEmpty && media_files.length != ids.length then
    { db := db,
      result := Except.error (ApiError.http 400 "Some media files not found or inaccessible") }
  else
    let r := TweetRepository.add db u.id tw.tweet_data
    if media_files.isEmpty then
      { db := r.1, result := Except.ok r.2.id }
    else
      { db := TweetMediaRepository.add_all r.1 (media_files.map (fun m => (r.2.id, m.id))),
        result := Except.ok r.2.id }

/-- The media-cleanup loop at the end of `del_tweet`.  `links` holds the
tweet's `TweetMedia` rows as loaded, each with its ORM-loaded `Media`
object (`none` only if the non-nullable FK were broken).  For each link:
ask the association store for any remaining row with this `media_id`
(`TweetMediaRepository.filter`, i.e. first-or-None); when none remains,
rebuild the on-disk path with `os.path.basename`/`os.path.join`, run the
`file_path is None` guard, `os.remove` the file and delete the Media row. -/
def cleanupMedia (upl : String) (db : DB)
    (links : List (TweetMediaRow × Option MediaRow)) : TweetOpResult :=
  match links with
  | [] => { db := db, result := Except.ok () }
  | (tm, mopt) :: rest =>
    match mopt with
    | none =>
        { db := db, result := Except.error (ApiError.storage "TweetMedia row without Media row") }
    | some media =>
      match TweetMediaRepository.filter db (fun tm2 => tm2.mediaId == tm.mediaId) with
      | some _ => cleanupMedia upl db rest
      | none =>
        let file_name := basename media.filePath
        let file_path : Option String := some (osPathJoin upl file_name)
        match file_path with
        | none => { db := db, result := Except.error ApiError.fileGuard }
        | some p =>
          if db.files.contains p then
            cleanupMedia upl
              (MediaRepository.delete
                { db with files := db.files.filter (fun q => q != p) } media)
              rest
          else
            { db := db, result := Except.error (ApiError.osRemove p) }

/-- Embeds `TweetServices.del_tweet`: find the tweet by `id` and owner; 404 when
absent; delete it (cascading to its own `TweetMedia` and `Like` rows);
then run the media-cleanup loop over its previously loaded media links.
`upl` is `settings.UPL_DIR`. -/
def del_tweet (upl : String) (db : DB) (u : UserRow) (id : Nat) : TweetOpResult :=
  let tweets := TweetRepository.filter db (fun t => t.id == id && t.userId == u.id)
      false none none
  match tweets with
  | [] =>
      { db := db,
        result := Except.error (ApiError.http 404 "Tweet not found or not owned by the user") }
  | tweet :: _ =>
    let media_files := (db.tweetMedia.filter (fun tm => tm.tweetId == tweet.id)).map
        (fun tm => (tm, db.media.find? (fun m => m.id == tm.mediaId)))
    cleanupMedia upl (TweetRepository.delete db tweet) media_files

/-- Embeds `TweetServices.add_like`: 404 when the tweet does not exist; then look
up an existing like for (tweet, caller); 409 when present; otherwise
insert the new `Like` row. -/
def add_like (db : DB) (u : UserRow) (id : Nat) : TweetOpResult :=
  match TweetRepository.get_by_id db id with
  | Except.error e => { db := db, result := Except.error e }
  | Except.ok none =>
      { db := db, result := Except.error (ApiError.http 404 "Tweet not found") }
  | Except.ok (some _) =>
    match LikeRepository.filter db (fun l => l.tweetId == id && l.userId == u.id) with
    | Except.error e => { db := db, result := Except.error e }
    | Except.ok (some _) =>
        { db := db, result := Except.error (ApiError.http 409 "You can't put more than 1 like") }
    | Except.ok none =>
        match LikeRepository.add db id u.id with
        | Except.error e => { db := db, result := Except.error e }
        | Except.ok db1 => { db := db1, result := Except.ok () }

/-- The author set of `get_tweets`: the followee ids of the caller's follow
edges, plus the caller; just the caller when the caller follows nobody. -/
def followingList (db : DB) (u : UserRow) : List Nat :=
  let subscribers := FollowerRepository.filter db (fun f => f.followerId == u.id)
  if subscribers.isEmpty then [u.id]
  else subscribers.map (fun f => f.followeeId) ++ [u.id]

/-- The ordered tweet sequence produced inside `TweetServices.get_tweets`:
page-oriented offset rewrite `offset := (offset - 1) * limit` when both are
supplied, then `TweetRepository.filter` with
`Tweets.user_id.in_(following_list)` and the likes/recency ordering. -/
def get_tweets_query (db : DB) (u : UserRow) (lim off : Option Nat) : List TweetRow :=
  let off2 : Option Nat :=
    match off, lim with
    | some o, some l => some ((o - 1) * l)
    | o, _ => o
  let fl := followingList db u
  TweetRepository.filter db (fun t => fl.contains t.userId) true off2 lim

end TweetServices

/-- Predicate lift over an optional row: holds vacuously for `none`. -/
def optAll {α : Type} (p : α → Bool) : Option α → Bool
  | none => true
  | some a => p a

/-- Predicate lift over a `scalar_one_or_none` result: checks the row when
one was returned, holds vacuously for absence or a storage error. -/
def exceptOptAll {α : Type} (p : α → Bool) : Except ApiError (Option α) → Bool
  | Except.ok (some a) => p a
  | _ => true

/-- Whether a service result is a raised HTTP 409 conflict. -/
def isConflict : Except ApiError Unit → Bool
  | Except.error (ApiError.http 409 _) => true
  | _ => false

/-- Whether a store event is a lookup of an existing follow relationship. -/
def isFollowLookup : StoreEvent → Bool
  | StoreEvent.followGetSubscribe _ _ => true
  | _ => false

/-- The strict feed precedence of the specification: `A` strictly precedes
`B` when `A` has more likes, or equally many and a strictly later creation
time (like counts read live from the `likes` table of `db`). -/
def FeedStrictBefore (db : DB) (a b : TweetRow) : Prop :=
  likesCount db b.id < likesCount db a.id ∨
    (likesCount db a.id = likesCount db b.id ∧ b.createdAt < a.createdAt)

instance (db : DB) : DecidableRel (FeedStrictBefore db) := fun a b => by
  unfold FeedStrictBefore; infer_instance

/-- Concrete user fixtures for the witness states. -/
def alice : UserRow := { id := 1, name := "alice" }

/-- Second concrete user. -/
def bobU : UserRow := { id := 2, name := "bob" }

/-- Third concrete user (followed by nobody, following nobody). -/
def carol : UserRow := { id := 3, name := "carol" }

/-- A concrete witness state: three users; alice follows bob; tweets 1
(alice's), 2 (bob's) and 3 (carol's); media 7 owned by alice, referenced by
tweets 1 and 2; bob's tweet liked once; media file present on disk. -/
def dbW : DB :=
  { users := [alice, bobU, carol],
    tweets := [{ id := 1, userId := 1, content := "t1", createdAt := 10 },
               { id := 2, userId := 2, content := "t2", createdAt := 20 },
               { id := 3, userId := 3, content := "t3", createdAt := 30 }],
    media := [{ id := 7, filePath := "/api/medias/a.jpg", userId := 1 }],
    tweetMedia := [{ id := 1, tweetId := 1, mediaId := 7 },
                   { id := 2, tweetId := 2, mediaId := 7 }],
    likes := [{ id := 1, tweetId := 2, userId := 1 }],
    followers := [{ id := 1, followerId := 1, followeeId := 2 }],
    files := ["up/a.jpg"],
    clock := 100 }

/-- A concrete create-tweet request referencing media 7 (owned by alice). -/
def twW : TweetCreate := { tweet_data := "hello", tweet_media_ids := some [7] }

theorem find?_eq_head?_filter {α : Type} (p : α → Bool) (l : List α) :
    l.find? p = (l.filter p).head? := by
  induction l with
  | nil => rfl
  | cons a t ih =>
      by_cases h : p a
      · simp only [List.find?_cons, List.filter_cons, h, if_pos, List.head?_cons]
      · simp only [List.find?_cons, List.filter_cons, h, if_neg, Bool.false_eq_true,
          not_false_eq_true, ih]

theorem mem_of_filter_eq_singleton {α : Type} {p : α → Bool} {l : List α} {x : α}
    (h : l.filter p = [x]) : x ∈ l ∧ p x = true := by
  have hx : x ∈ l.filter p := by rw [h]; exact List.mem_singleton_self x
  exact ⟨(List.mem_filter.mp hx).1, (List.mem_filter.mp hx).2⟩

/-- C9: for every follow-user or unfollow-user call whose target id equals
the caller's own id, the service fails with the 409 conflict, performs no
user lookup or store read (empty event trace), and leaves the state — in
particular the `followers` table — unchanged. -/
theorem C9_self_guard (db : DB) (u : UserRow) :
    UserServices.add_subscribe db u u.id =
      { events := [], db := db,
        result := Except.error (ApiError.http 409 "You can't subscribe to yourself") } ∧
    UserServices.delete_subscribe db u u.id =
      { events := [], db := db,
        result := Except.error (ApiError.http 409 "You can't unsubscribe from yourself") } := by
  constructor <;> simp [UserServices.add_subscribe, UserServices.delete_subscribe]

/-- C4: when both a page number and a limit are supplied, `get_tweets`
applies the row offset `(offset - 1) * limit` to the ordered tweet
sequence: the page is `take limit` of `drop ((offset - 1) * limit)` of the
unpaginated ordered sequence. -/
theorem C4_pagination (db : DB) (u : UserRow) (l o : Nat) (h1 : 1 ≤ o) :
    TweetServices.get_tweets_query db u (some l) (some o) =
      ((TweetServices.get_tweets_query db u none none).drop ((o - 1) * l)).take l := rfl

/-- Witness for C4 at page 2, limit 5: the returned page is the rows at raw
offsets 5..9 of the ordered sequence. -/
theorem C4_pagination_witness :
    1 ≤ 2 ∧
    TweetServices.get_tweets_query dbW alice (some 5) (some 2) =
      ((TweetServices.get_tweets_query dbW alice none none).drop 5).take 5 :=
  ⟨by decide, C4_pagination dbW alice 5 2 (by decide)⟩

theorem scalarOneOrNone_ok_none_iff {α : Type} (l : List α) :
    scalarOneOrNone l = Except.ok none ↔ l = [] := by
  cases l with
  | nil => simp [scalarOneOrNone]
  | cons a t => cases t <;> simp [scalarOneOrNone]

theorem scalarOneOrNone_filter_sound {α : Type} (p q : α → Bool) (l : List α)
    (hq : ∀ x ∈ l, p x = true → q x = true) :
    exceptOptAll q (scalarOneOrNone (l.filter p)) = true := by
  cases hf : l.filter p with
  | nil => rfl
  | cons a t =>
    cases t with
    | nil =>
      have ha := mem_of_filter_eq_singleton hf
      simp [scalarOneOrNone, exceptOptAll, hq a ha.1 ha.2]
    | cons b t2 => rfl

theorem head?_filter_sound {α : Type} (p q : α → Bool) (l : List α)
    (hq : ∀ x ∈ l, p x = true → q x = true) :
    optAll q ((l.filter p).head?) = true := by
  cases hf : l.filter p with
  | nil => rfl
  | cons a t =>
    have ha : a ∈ l.filter p := by rw [hf]; exact List.mem_cons_self a t
    simp [optAll, hq a (List.mem_filter.mp ha).1 (List.mem_filter.mp ha).2]

/-- C3: each of the three absence-aware lookups — `LikeRepository.filter`,
`TweetMediaRepository.filter` and `FollowerRepository.get_subscribe` —
returns, for any field-equality criteria `p`, at most one row or the
explicit absence marker `none` (never an empty collection): the result type
carries a single optional row, the absence marker is returned exactly when
no row matches, and any returned row is a matching row of the table. -/
theorem C3_single_lookup (db : DB) (pL : LikeRow → Bool) (pT : TweetMediaRow → Bool)
    (pF : FollowerRow → Bool) :
    (LikeRepository.filter db pL = Except.ok none ↔ db.likes.filter pL = []) ∧
    exceptOptAll (fun x => decide (x ∈ db.likes) && pL x) (LikeRepository.filter db pL) = true ∧
    (TweetMediaRepository.filter db pT = none ↔ db.tweetMedia.filter pT = []) ∧
    optAll (fun x => decide (x ∈ db.tweetMedia) && pT x)
      (TweetMediaRepository.filter db pT) = true ∧
    (FollowerRepository.get_subscribe db pF = Except.ok none ↔ db.followers.filter pF = []) ∧
    exceptOptAll (fun x => decide (x ∈ db.followers) && pF x)
      (FollowerRepository.get_subscribe db pF) = true := by
  refine ⟨scalarOneOrNone_ok_none_iff _, ?_, ?_, ?_, scalarOneOrNone_ok_none_iff _, ?_⟩
  · exact scalarOneOrNone_filter_sound pL _ db.likes (fun x hx hp => by simp [hx, hp])
  · unfold TweetMediaRepository.filter
    constructor
    · intro h
      cases hf : db.tweetMedia.filter pT with
      | nil => rfl
      | cons a t => rw [hf] at h; exact absurd h (by simp)
    · intro h; rw [h]; rfl
  · exact head?_filter_sound pT _ db.tweetMedia (fun x hx hp => by simp [hx, hp])
  · exact scalarOneOrNone_filter_sound pF _ db.followers (fun x hx hp => by simp [hx, hp])

/-- Witness for C3 at the concrete state `dbW` with the lookups the services
actually issue: like of (tweet 2, user 1), associations of media 7, follow
edges with follower 1. -/
theorem C3_single_lookup_witness :
    (LikeRepository.filter dbW (fun l => l.tweetId == 2 && l.userId == 1) = Except.ok none ↔
      dbW.likes.filter (fun l => l.tweetId == 2 && l.userId == 1) = []) ∧
    exceptOptAll (fun x => decide (x ∈ dbW.likes) && (x.tweetId == 2 && x.userId == 1))
      (LikeRepository.filter dbW (fun l => l.tweetId == 2 && l.userId == 1)) = true ∧
    (TweetMediaRepository.filter dbW (fun tm => tm.mediaId == 7) = none ↔
      dbW.tweetMedia.filter (fun tm => tm.mediaId == 7) = []) ∧
    optAll (fun x => decide (x ∈ dbW.tweetMedia) && (x.mediaId == 7))
      (TweetMediaRepository.filter dbW (fun tm => tm.mediaId == 7)) = true ∧
    (FollowerRepository.get_subscribe dbW (fun f => f.followerId == 1) = Except.ok none ↔
      dbW.followers.filter (fun f => f.followerId == 1) = []) ∧
    exceptOptAll (fun x => decide (x ∈ dbW.followers) && (x.followerId == 1))
      (FollowerRepository.get_subscribe dbW (fun f => f.followerId == 1)) = true :=
  C3_single_lookup dbW (fun l => l.tweetId == 2 && l.userId == 1)
    (fun tm => tm.mediaId == 7) (fun f => f.followerId == 1)

/-- C7: when the tweet exists and the caller has already liked it (exactly
one `Like` row for the pair, as the unique constraint guarantees), a second
`add_like` fails with the 409 conflict, inserts nothing, and the `likes`
table still holds exactly that one row for the (tweet, user) pair. -/
theorem C7_duplicate_like (db : DB) (u : UserRow) (tid : Nat) (lr : LikeRow)
    (htw : (db.tweets.filter (fun t => t.id == tid)).length = 1)
    (hlk : db.likes.filter (fun l => l.tweetId == tid && l.userId == u.id) = [lr]) :
    TweetServices.add_like db u tid =
      { db := db,
        result := Except.error (ApiError.http 409 "You can't put more than 1 like") } ∧
    (TweetServices.add_like db u tid).db.likes.filter
      (fun l => l.tweetId == tid && l.userId == u.id) = [lr] := by
  obtain ⟨t0, ht0⟩ := List.length_eq_one.mp htw
  have h1 : TweetServices.add_like db u tid =
      { db := db,
        result := Except.error (ApiError.http 409 "You can't put more than 1 like") } := by
    unfold TweetServices.add_like TweetRepository.get_by_id LikeRepository.filter
    rw [ht0, hlk]
    rfl
  exact ⟨h1, by rw [h1]; exact hlk⟩

/-- Witness for C7: alice likes bob's tweet 2 in `dbW` where her like is
already recorded; the call returns 409 and changes nothing. -/
theorem C7_duplicate_like_witness :
    (dbW.tweets.filter (fun t => t.id == 2)).length = 1 ∧
    dbW.likes.filter (fun l => l.tweetId == 2 && l.userId == alice.id) =
      [{ id := 1, tweetId := 2, userId := 1 }] ∧
    TweetServices.add_like dbW alice 2 =
      { db := dbW,
        result := Except.error (ApiError.http 409 "You can't put more than 1 like") } :=
  ⟨by decide, by decide,
    (C7_duplicate_like dbW alice 2 { id := 1, tweetId := 2, userId := 1 }
      (by decide) (by decide)).1⟩

/-- C2 counterexample: in `dbW`, alice already follows bob (user 2), yet
`add_subscribe` does not look up the existing relationship and does not
fail with a conflict: its event trace contains no follow lookup, and the
outcome is the uncategorized storage error from the unique constraint. -/
theorem C2_counterexample :
    (UserServices.add_subscribe dbW alice 2).result =
      Except.error (ApiError.storage "IntegrityError: unique_follower_followee") ∧
    isConflict (UserServices.add_subscribe dbW alice 2).result = false ∧
    (UserServices.add_subscribe dbW alice 2).events.any isFollowLookup = false ∧
    (UserServices.add_subscribe dbW alice 2).db = dbW := by decide

/-- C2 (amended): for every follow request by `u` targeting an existing
user `id ≠ u.id` when the Follow edge already exists, the service performs
no lookup of the existing relationship (no `followGetSubscribe` event) and
attempts the insert directly; the storage layer's unique constraint
rejects it with an uncategorized storage error — not a conflict error —
and no second edge is inserted (the state is unchanged). -/
theorem C2_duplicate_follow (db : DB) (u : UserRow) (id : Nat)
    (hne : id ≠ u.id)
    (huser : (db.users.filter (fun usr => usr.id == id)).length = 1)
    (hedge : db.followers.any (fun f => f.followerId == u.id && f.followeeId == id) = true) :
    UserServices.add_subscribe db u id =
      { events := [StoreEvent.userGetById id, StoreEvent.followAdd], db := db,
        result := Except.error (ApiError.storage "IntegrityError: unique_follower_followee") } := by
  obtain ⟨usr0, husr⟩ := List.length_eq_one.mp huser
  unfold UserServices.add_subscribe UserRepository.get_by_id FollowerRepository.add
  rw [if_neg hne, husr, if_pos hedge]
  rfl

/-- Witness for C2 (amended) at `dbW`: alice re-follows bob. -/
theorem C2_duplicate_follow_witness :
    2 ≠ alice.id ∧
    (dbW.users.filter (fun usr => usr.id == 2)).length = 1 ∧
    dbW.followers.any (fun f => f.followerId == alice.id && f.followeeId == 2) = true ∧
    UserServices.add_subscribe dbW alice 2 =
      { events := [StoreEvent.userGetById 2, StoreEvent.followAdd], db := dbW,
        result := Except.error (ApiError.storage "IntegrityError: unique_follower_followee") } :=
  ⟨by decide, by decide, by decide,
    C2_duplicate_follow dbW alice 2 (by decide) (by decide) (by decide)⟩

theorem withFreshIds_pairs (start : Nat) (recs : List (Nat × Nat)) :
    (TweetMediaRepository.withFreshIds start recs).map (fun r => (r.tweetId, r.mediaId)) =
      recs := by
  induction recs generalizing start with
  | nil => rfl
  | cons a rest ih => cases a; simp [TweetMediaRepository.withFreshIds, ih]

/-- C8: for a create-tweet call with a non-empty media id list, when the
count of media rows that exist and are owned by the caller differs from the
count of requested ids, the call fails with the 400 validation error and
creates nothing; when the counts match, exactly one tweet row is created
and then one `TweetMedia` row is inserted per validated media row, all
bound to the new tweet id, with every other table untouched. -/
theorem C8_create_tweet_validation (db : DB) (u : UserRow) (tw : TweetCreate)
    (hne : idsOf tw.tweet_media_ids ≠ []) :
    ((db.media.filter (fun m =>
          (idsOf tw.tweet_media_ids).contains m.id && m.userId == u.id)).length ≠
        (idsOf tw.tweet_media_ids).length →
      TweetServices.add_new_tweet db u tw =
        { db := db,
          result := Except.error
            (ApiError.http 400 "Some media files not found or inaccessible") }) ∧
    ((db.media.filter (fun m =>
          (idsOf tw.tweet_media_ids).contains m.id && m.userId == u.id)).length =
        (idsOf tw.tweet_media_ids).length →
      (TweetServices.add_new_tweet db u tw).result =
        Except.ok (freshId (db.tweets.map (fun s => s.id))) ∧
      (TweetServices.add_new_tweet db u tw).db.tweets =
        db.tweets ++ [{ id := freshId (db.tweets.map (fun s => s.id)), userId := u.id,
                        content := tw.tweet_data, createdAt := db.clock }] ∧
      (TweetServices.add_new_tweet db u tw).db.tweetMedia.map
          (fun r => (r.tweetId, r.mediaId)) =
        db.tweetMedia.map (fun r => (r.tweetId, r.mediaId)) ++
          (db.media.filter (fun m =>
              (idsOf tw.tweet_media_ids).contains m.id && m.userId == u.id)).map
            (fun m => (freshId (db.tweets.map (fun s => s.id)), m.id)) ∧
      (TweetServices.add_new_tweet db u tw).db.media = db.media ∧
      (TweetServices.add_new_tweet db u tw).db.likes = db.likes ∧
      (TweetServices.add_new_tweet db u tw).db.followers = db.followers) := by
  have hids : (idsOf tw.tweet_media_ids).isEmpty = false := by
    cases h : idsOf tw.tweet_media_ids with
    | nil => exact absurd h hne
    | cons a t => rfl
  have hlen0 : (idsOf tw.tweet_media_ids).length ≠ 0 := by
    cases h : idsOf tw.tweet_media_ids with
    | nil => exact absurd h hne
    | cons a t => simp [h]
  constructor
  · intro hlen
    have hb : ((db.media.filter (fun m =>
        (idsOf tw.tweet_media_ids).contains m.id && m.userId == u.id)).length
          != (idsOf tw.tweet_media_ids).length) = true := bne_iff_ne.mpr hlen
    simp only [TweetServices.add_new_tweet, MediaRepository.filter, hids, hb,
      Bool.not_false, Bool.true_and, Bool.false_eq_true, if_false, if_true]
  · intro hlen
    have hb : ((db.media.filter (fun m =>
        (idsOf tw.tweet_media_ids).contains m.id && m.userId == u.id)).length
          != (idsOf tw.tweet_media_ids).length) = false := bne_eq_false_iff_eq.mpr hlen
    have hmne : (db.media.filter (fun m =>
        (idsOf tw.tweet_media_ids).contains m.id && m.userId == u.id)).isEmpty = false := by
      cases hf : db.media.filter (fun m =>
          (idsOf tw.tweet_media_ids).contains m.id && m.userId == u.id) with
      | nil => rw [hf] at hlen; exact absurd hlen.symm hlen0
      | cons a t => rfl
    simp only [TweetServices.add_new_tweet, MediaRepository.filter, TweetRepository.add,
      TweetMediaRepository.add_all, hids, hb, hmne, Bool.not_false, Bool.true_and,
      Bool.false_eq_true, if_false]
    refine ⟨trivial, trivial, ?_, trivial, trivial, trivial⟩
    rw [List.map_append, withFreshIds_pairs]

/-- Witness for C8: alice creates a tweet attaching media 7 in `dbW`; the
counts match, and the call succeeds with the fresh tweet id. -/
theorem C8_create_tweet_validation_witness :
    idsOf twW.tweet_media_ids ≠ [] ∧
    (dbW.media.filter (fun m =>
        (idsOf twW.tweet_media_ids).contains m.id && m.userId == alice.id)).length =
      (idsOf twW.tweet_media_ids).length ∧
    (TweetServices.add_new_tweet dbW alice twW).result =
      Except.ok (freshId (dbW.tweets.map (fun s => s.id))) :=
  ⟨by decide, by decide,
    ((C8_create_tweet_validation dbW alice twW (by decide)).2 (by decide)).1⟩

theorem cleanupMedia_ne_fileGuard (links : List (TweetMediaRow × Option MediaRow)) :
    ∀ (upl : String) (db : DB),
      (TweetServices.cleanupMedia upl db links).result ≠ Except.error ApiError.fileGuard := by
  induction links with
  | nil => intro upl db; simp [TweetServices.cleanupMedia]
  | cons hd rest ih =>
    intro upl db
    obtain ⟨tm, mopt⟩ := hd
    unfold TweetServices.cleanupMedia
    cases mopt with
    | none => simp
    | some media =>
      cases hrem : TweetMediaRepository.filter db (fun tm2 => tm2.mediaId == tm.mediaId) with
      | some x => simp only [hrem]; exact ih upl db
      | none =>
        simp only [hrem]
        by_cases hc : db.files.contains (osPathJoin upl (basename media.filePath)) = true
        · simp only [hc, if_true]; exact ih upl _
        · have hc0 : db.files.contains (osPathJoin upl (basename media.filePath)) = false := by
            revert hc
            cases db.files.contains (osPathJoin upl (basename media.filePath)) <;> simp
          simp only [hc0, Bool.false_eq_true, if_false]
          simp

/-- C10: the `file_path is None` guard in `del_tweet`'s media-cleanup loop
is dead code: `file_path` is built by `os.path.join` from strings, so for
every state and every link list the loop (and hence `del_tweet`) never
raises the guard's `FileNotFoundError("File not found")`; a missing file
surfaces only as the error raised by `os.remove` itself. -/
theorem C10_file_guard_dead (upl : String) (db : DB)
    (links : List (TweetMediaRow × Option MediaRow)) (u : UserRow) (id : Nat)
    (tm : TweetMediaRow) (m : MediaRow) (rest : List (TweetMediaRow × Option MediaRow)) :
    (TweetServices.cleanupMedia upl db links).result ≠ Except.error ApiError.fileGuard ∧
    (TweetServices.del_tweet upl db u id).result ≠ Except.error ApiError.fileGuard ∧
    (TweetMediaRepository.filter db (fun tm2 => tm2.mediaId == tm.mediaId) = none →
      db.files.contains (osPathJoin upl (basename m.filePath)) = false →
      TweetServices.cleanupMedia upl db ((tm, some m) :: rest) =
        { db := db,
          result := Except.error (ApiError.osRemove (osPathJoin upl (basename m.filePath))) }) := by
  refine ⟨cleanupMedia_ne_fileGuard links upl db, ?_, ?_⟩
  · unfold TweetServices.del_tweet
    cases h : TweetRepository.filter db (fun t => t.id == id && t.userId == u.id)
        false none none with
    | nil => simp
    | cons tweet restT => exact cleanupMedia_ne_fileGuard _ upl _
  · intro hrem hc
    unfold TweetServices.cleanupMedia
    simp only [hrem, hc, Bool.false_eq_true, if_false]

/-- Witness for C10: in `dbW` nothing references media id 9 and its file is
absent, so the cleanup step fails with the `os.remove` error — not the
guard error — and `del_tweet` of tweet 1 never yields the guard error. -/
theorem C10_file_guard_dead_witness :
    ((TweetServices.cleanupMedia "up" dbW []).result ≠ Except.error ApiError.fileGuard ∧
     (TweetServices.del_tweet "up" dbW alice 1).result ≠ Except.error ApiError.fileGuard ∧
     (TweetMediaRepository.filter dbW
          (fun tm2 => tm2.mediaId == (⟨9, 3, 9⟩ : TweetMediaRow).mediaId) = none →
       dbW.files.contains
           (osPathJoin "up" (basename (⟨9, "/api/medias/b.jpg", 1⟩ : MediaRow).filePath)) = false →
       TweetServices.cleanupMedia "up" dbW [(⟨9, 3, 9⟩, some ⟨9, "/api/medias/b.jpg", 1⟩)] =
         { db := dbW,
           result := Except.error (ApiError.osRemove
             (osPathJoin "up"
               (basename (⟨9, "/api/medias/b.jpg", 1⟩ : MediaRow).filePath))) })) :=
  C10_file_guard_dead "up" dbW [] alice 1 ⟨9, 3, 9⟩ ⟨9, "/api/medias/b.jpg", 1⟩ []

theorem mem_followingList (db : DB) (u : UserRow) (w : Nat) :
    w ∈ TweetServices.followingList db u ↔
      (w = u.id ∨ ∃ f ∈ db.followers, f.followerId = u.id ∧ f.followeeId = w) := by
  unfold TweetServices.followingList FollowerRepository.filter
  by_cases hsub : db.followers.filter (fun f => f.followerId == u.id) = []
  · simp only [hsub, List.isEmpty_nil, if_true, List.mem_singleton]
    constructor
    · exact Or.inl
    · rintro (h | ⟨f, hf, hfid, _⟩)
      · exact h
      · exfalso
        have hmem : f ∈ db.followers.filter (fun g => g.followerId == u.id) :=
          List.mem_filter.mpr ⟨hf, by simp [hfid]⟩
        rw [hsub] at hmem
        exact absurd hmem (List.not_mem_nil f)
  · have hie : (db.followers.filter (fun f => f.followerId == u.id)).isEmpty = false :=
      List.isEmpty_eq_false.mpr hsub
    simp only [hie, Bool.false_eq_true, if_false, List.mem_append, List.mem_singleton,
      List.mem_map, List.mem_filter, beq_iff_eq]
    constructor
    · rintro (⟨f, ⟨hf, hfid⟩, hfw⟩ | hw)
      · exact Or.inr ⟨f, hf, hfid, hfw⟩
      · exact Or.inl hw
    · rintro (hw | ⟨f, hf, hfid, hfw⟩)
      · exact Or.inr hw
      · exact Or.inl ⟨f, ⟨hf, hfid⟩, hfw⟩

theorem mem_of_TweetRepository_filter {db : DB} {pred : TweetRow → Bool} {ob : Bool}
    {off lim : Option Nat} {t : TweetRow}
    (ht : t ∈ TweetRepository.filter db pred ob off lim) :
    t ∈ db.tweets ∧ pred t = true := by
  simp only [TweetRepository.filter] at ht
  have hfil : t ∈ db.tweets.filter pred := by
    cases lim with
    | none =>
      cases off with
      | none =>
        cases ob <;> simp only [if_true, if_false, Bool.false_eq_true] at ht
        · exact ht
        · exact (List.mem_insertionSort (FeedLE db)).mp ht
      | some o =>
        cases ob <;> simp only [if_true, if_false, Bool.false_eq_true] at ht
        · exact List.mem_of_mem_drop ht
        · exact (List.mem_insertionSort (FeedLE db)).mp (List.mem_of_mem_drop ht)
    | some l =>
      cases off with
      | none =>
        cases ob <;> simp only [if_true, if_false, Bool.false_eq_true] at ht
        · exact List.mem_of_mem_take ht
        · exact (List.mem_insertionSort (FeedLE db)).mp (List.mem_of_mem_take ht)
      | some o =>
        cases ob <;> simp only [if_true, if_false, Bool.false_eq_true] at ht
        · exact List.mem_of_mem_drop (List.mem_of_mem_take ht)
        · exact (List.mem_insertionSort (FeedLE db)).mp
            (List.mem_of_mem_drop (List.mem_of_mem_take ht))
  exact ⟨(List.mem_filter.mp hfil).1, (List.mem_filter.mp hfil).2⟩

/-- C6: the feed's visible author set.  Membership in the author list used
by `get_tweets` is exactly "the caller, or a followee of the caller"; when
the caller's following set is empty the list is the singleton of the
caller; and every tweet returned by the feed query is authored by a member
of that list — a user neither followed by the caller nor equal to the
caller never contributes a tweet. -/
theorem C6_visible_authors (db : DB) (u : UserRow) (lim off : Option Nat) :
    (∀ w : Nat, w ∈ TweetServices.followingList db u ↔
      (w = u.id ∨ ∃ f ∈ db.followers, f.followerId = u.id ∧ f.followeeId = w)) ∧
    (db.followers.filter (fun f => f.followerId == u.id) = [] →
      TweetServices.followingList db u = [u.id]) ∧
    (∀ t ∈ TweetServices.get_tweets_query db u lim off,
      t.userId ∈ TweetServices.followingList db u) := by
  refine ⟨mem_followingList db u, ?_, ?_⟩
  · intro hsub
    unfold TweetServices.followingList FollowerRepository.filter
    simp only [hsub, List.isEmpty_nil, if_true]
  · intro t ht
    have hp := (mem_of_TweetRepository_filter
      (ht : t ∈ TweetRepository.filter db _ true _ lim)).2
    have : (TweetServices.followingList db u).contains t.userId = true := hp
    simpa using this

/-- Witness for C6 at `dbW`: alice's author list is exactly bob and
herself, and the feed query only returns their tweets (carol's tweet 3 is
absent). -/
theorem C6_visible_authors_witness :
    (∀ w : Nat, w ∈ TweetServices.followingList dbW alice ↔
      (w = alice.id ∨ ∃ f ∈ dbW.followers, f.followerId = alice.id ∧ f.followeeId = w)) ∧
    (dbW.followers.filter (fun f => f.followerId == alice.id) = [] →
      TweetServices.followingList dbW alice = [alice.id]) ∧
    (∀ t ∈ TweetServices.get_tweets_query dbW alice none none,
      t.userId ∈ TweetServices.followingList dbW alice) :=
  C6_visible_authors dbW alice none none

theorem pairwise_strict_feed (db : DB) (u : UserRow) (lim off : Option Nat)
    (hnodup : (db.tweets.map (fun t => t.id)).Nodup)
    (hkeys : ∀ a ∈ db.tweets, ∀ b ∈ db.tweets, a ≠ b →
      (likesCount db a.id, a.createdAt) ≠ (likesCount db b.id, b.createdAt)) :
    (TweetServices.get_tweets_query db u lim off).Pairwise (FeedStrictBefore db) := by
  have hnd : db.tweets.Nodup := List.Nodup.of_map _ hnodup
  have hq0 : (db.tweets.filter
      (fun t => (TweetServices.followingList db u).contains t.userId)).Nodup :=
    hnd.filter _
  have hperm := List.perm_insertionSort (FeedLE db)
    (db.tweets.filter (fun t => (TweetServices.followingList db u).contains t.userId))
  have hq1nd : (List.insertionSort (FeedLE db)
      (db.tweets.filter
        (fun t => (TweetServices.followingList db u).contains t.userId))).Nodup :=
    hperm.symm.nodup hq0
  have hsorted : (List.insertionSort (FeedLE db)
      (db.tweets.filter
        (fun t => (TweetServices.followingList db u).contains t.userId))).Pairwise
      (FeedLE db) :=
    List.sorted_insertionSort (FeedLE db) _
  have hcomb := List.pairwise_and_iff.mpr ⟨hsorted, hq1nd⟩
  have hstrict : (List.insertionSort (FeedLE db)
      (db.tweets.filter
        (fun t => (TweetServices.followingList db u).contains t.userId))).Pairwise
      (FeedStrictBefore db) := by
    refine List.Pairwise.imp_of_mem ?_ hcomb
    intro a b ha hb hab
    have haT : a ∈ db.tweets := (List.mem_filter.mp (hperm.subset ha)).1
    have hbT : b ∈ db.tweets := (List.mem_filter.mp (hperm.subset hb)).1
    have hk := hkeys a haT b hbT hab.2
    rw [Ne, Prod.mk.injEq] at hk
    have hle := hab.1
    unfold FeedLE at hle
    unfold FeedStrictBefore
    omega
  cases lim with
  | none =>
    cases off with
    | none => exact hstrict
    | some o => exact List.Pairwise.sublist (List.drop_sublist o _) hstrict
  | some l =>
    cases off with
    | none => exact List.Pairwise.sublist (List.take_sublist l _) hstrict
    | some o =>
      exact List.Pairwise.sublist ((List.take_sublist _ _).trans (List.drop_sublist _ _)) hstrict

/-- C5: feed ordering.  When no two distinct tweets share both the live
like count and the creation time (ties between equal sort keys are left
unspecified by `ORDER BY`), a tweet at position `i` of the feed query
strictly precedes the one at position `j` exactly when it has more likes,
or equally many and a later creation time; the like count is
`likesCount`, the live aggregate over the current `likes` table. -/
theorem C5_feed_ordering (db : DB) (u : UserRow) (lim off : Option Nat)
    (hnodup : (db.tweets.map (fun t => t.id)).Nodup)
    (hkeys : ∀ a ∈ db.tweets, ∀ b ∈ db.tweets, a ≠ b →
      (likesCount db a.id, a.createdAt) ≠ (likesCount db b.id, b.createdAt))
    (i j : Nat)
    (hi : i < (TweetServices.get_tweets_query db u lim off).length)
    (hj : j < (TweetServices.get_tweets_query db u lim off).length) :
    i < j ↔ FeedStrictBefore db
      ((TweetServices.get_tweets_query db u lim off).get ⟨i, hi⟩)
      ((TweetServices.get_tweets_query db u lim off).get ⟨j, hj⟩) := by
  have hpw := pairwise_strict_feed db u lim off hnodup hkeys
  have hfwd := List.pairwise_iff_get.mp hpw
  constructor
  · intro hij
    exact hfwd ⟨i, hi⟩ ⟨j, hj⟩ hij
  · intro hstr
    by_contra hij
    rcases Nat.lt_or_ge j i with hj2 | hj2
    · have hrev := hfwd ⟨j, hj⟩ ⟨i, hi⟩ hj2
      unfold FeedStrictBefore at hstr hrev
      omega
    · have hij2 : i = j := by omega
      subst hij2
      have he : (TweetServices.get_tweets_query db u lim off).get ⟨i, hj⟩ =
          (TweetServices.get_tweets_query db u lim off).get ⟨i, hi⟩ := rfl
      rw [he] at hstr
      unfold FeedStrictBefore at hstr
      omega

/-- Witness for C5 at `dbW` with the full (unpaginated) feed of alice: the
once-liked tweet 2 sits at position 0, strictly before the unliked tweet 1
at position 1. -/
theorem C5_feed_ordering_witness :
    (dbW.tweets.map (fun t => t.id)).Nodup ∧
    (∀ a ∈ dbW.tweets, ∀ b ∈ dbW.tweets, a ≠ b →
      (likesCount dbW a.id, a.createdAt) ≠ (likesCount dbW b.id, b.createdAt)) ∧
    (0 < 1 ↔ FeedStrictBefore dbW
      ((TweetServices.get_tweets_query dbW alice none none).get ⟨0, by decide⟩)
      ((TweetServices.get_tweets_query dbW alice none none).get ⟨1, by decide⟩)) :=
  ⟨by decide, by decide,
    C5_feed_ordering dbW alice none none (by decide) (by decide) 0 1 (by decide) (by decide)⟩

/-- C1: reference-counted media reclamation on tweet deletion.  For a
state in which tweets `t1` (owned by `ua`) and `t2` (owned by `ub`) are
exactly the tweets referencing media `m` (through the association rows
`tm1` and `tm2`), and `m`'s file is stored: deleting `t1` succeeds and
leaves the `Media` row `m` and its file intact (an association from `t2`
still remains), and the subsequent deletion of `t2` succeeds and removes
both the `Media` row `m` and its stored file — the row is reclaimed
exactly when no `TweetMedia` association referencing it remains. -/
theorem C1_media_reclamation (upl : String) (db : DB) (ua ub : UserRow)
    (t1 t2 : Nat) (m : MediaRow) (tm1 tm2 : TweetMediaRow)
    (hmedia : db.media.filter (fun n => n.id == m.id) = [m])
    (htw1 : db.tweets.filter (fun t => t.id == t1 && t.userId == ua.id) ≠ [])
    (htw2 : db.tweets.filter (fun t => t.id == t2 && t.userId == ub.id) ≠ [])
    (hlinks1 : db.tweetMedia.filter (fun tm => tm.tweetId == t1) = [tm1])
    (hlinks2 : db.tweetMedia.filter (fun tm => tm.tweetId == t2) = [tm2])
    (htm1 : tm1.mediaId = m.id) (htm2 : tm2.mediaId = m.id)
    (honly : ∀ tm ∈ db.tweetMedia, tm.mediaId = m.id → tm = tm1 ∨ tm = tm2)
    (hne : t1 ≠ t2)
    (hfile : db.files.contains (osPathJoin upl (basename m.filePath)) = true) :
    (TweetServices.del_tweet upl db ua t1).result = Except.ok () ∧
    (TweetServices.del_tweet upl db ua t1).db.media.filter (fun n => n.id == m.id) = [m] ∧
    (TweetServices.del_tweet upl db ua t1).db.files.contains
      (osPathJoin upl (basename m.filePath)) = true ∧
    (TweetServices.del_tweet upl (TweetServices.del_tweet upl db ua t1).db ub t2).result =
      Except.ok () ∧
    (TweetServices.del_tweet upl
      (TweetServices.del_tweet upl db ua t1).db ub t2).db.media.filter
      (fun n => n.id == m.id) = [] ∧
    (TweetServices.del_tweet upl
      (TweetServices.del_tweet upl db ua t1).db ub t2).db.files.contains
      (osPathJoin upl (basename m.filePath)) = false := by
  cases h1 : db.tweets.filter (fun t => t.id == t1 && t.userId == ua.id) with
  | nil => exact absurd h1 htw1
  | cons tweet1 rest1 =>
  have htw1mem : tweet1 ∈ db.tweets.filter (fun t => t.id == t1 && t.userId == ua.id) := by
    rw [h1]; exact List.mem_cons_self _ _
  have htid1 : tweet1.id = t1 := by
    have hp := (List.mem_filter.mp htw1mem).2
    rw [Bool.and_eq_true] at hp
    exact beq_iff_eq.mp hp.1
  have htm1mem := mem_of_filter_eq_singleton hlinks1
  have htm2mem := mem_of_filter_eq_singleton hlinks2
  have htm1tid : tm1.tweetId = t1 := beq_iff_eq.mp htm1mem.2
  have htm2tid : tm2.tweetId = t2 := beq_iff_eq.mp htm2mem.2
  have hmf1 : (db.tweetMedia.filter (fun tm => tm.tweetId == tweet1.id)).map
      (fun tm => (tm, db.media.find? (fun n => n.id == tm.mediaId))) = [(tm1, some m)] := by
    rw [htid1, hlinks1, List.map_cons, List.map_nil, htm1, find?_eq_head?_filter, hmedia]
    rfl
  have hq1 : TweetRepository.filter db (fun t => t.id == t1 && t.userId == ua.id)
      false none none = tweet1 :: rest1 := by
    show db.tweets.filter (fun t => t.id == t1 && t.userId == ua.id) = tweet1 :: rest1
    exact h1
  have hrem1 : ∃ x, TweetMediaRepository.filter (TweetRepository.delete db tweet1)
      (fun v => v.mediaId == tm1.mediaId) = some x := by
    unfold TweetMediaRepository.filter
    have hm2 : tm2 ∈ (TweetRepository.delete db tweet1).tweetMedia.filter
        (fun v => v.mediaId == tm1.mediaId) := by
      apply List.mem_filter.mpr
      constructor
      · show tm2 ∈ db.tweetMedia.filter (fun tm => tm.tweetId != tweet1.id)
        apply List.mem_filter.mpr
        refine ⟨htm2mem.1, ?_⟩
        rw [htid1, htm2tid]
        exact bne_iff_ne.mpr (Ne.symm hne)
      · rw [htm1, htm2]
        exact beq_self_eq_true m.id
    cases hflt : (TweetRepository.delete db tweet1).tweetMedia.filter
        (fun v => v.mediaId == tm1.mediaId) with
    | nil => rw [hflt] at hm2; cases hm2
    | cons x xs => exact ⟨x, rfl⟩
  obtain ⟨x1, hx1⟩ := hrem1
  have hr1 : TweetServices.del_tweet upl db ua t1 =
      { db := TweetRepository.delete db tweet1, result := Except.ok () } := by
    unfold TweetServices.del_tweet
    rw [hq1]
    show TweetServices.cleanupMedia upl (TweetRepository.delete db tweet1)
        ((db.tweetMedia.filter (fun tm => tm.tweetId == tweet1.id)).map
          (fun tm => (tm, db.media.find? (fun n => n.id == tm.mediaId)))) =
      { db := TweetRepository.delete db tweet1, result := Except.ok () }
    rw [hmf1]
    unfold TweetServices.cleanupMedia
    rw [hx1]
    rfl
  -- step 2: delete t2 from the state after step 1
  have hpt2 : ∀ s : TweetRow,
      ((s.id == t2 && s.userId == ub.id) && (s.id != tweet1.id)) =
        (s.id == t2 && s.userId == ub.id) := by
    intro s
    rw [htid1]
    by_cases hs : s.id = t2
    · have hb : (s.id != t1) = true := bne_iff_ne.mpr (by rw [hs]; exact Ne.symm hne)
      rw [hb, Bool.and_true]
    · have hb : (s.id == t2) = false := beq_eq_false_iff_ne.mpr hs
      rw [hb, Bool.false_and, Bool.false_and]
  have htwf2 : (TweetRepository.delete db tweet1).tweets.filter
      (fun t => t.id == t2 && t.userId == ub.id) =
      db.tweets.filter (fun t => t.id == t2 && t.userId == ub.id) := by
    show (db.tweets.filter (fun s => s.id != tweet1.id)).filter
        (fun t => t.id == t2 && t.userId == ub.id) = _
    rw [List.filter_filter]
    exact List.filter_congr (fun s _ => hpt2 s)
  cases h2 : db.tweets.filter (fun t => t.id == t2 && t.userId == ub.id) with
  | nil => exact absurd h2 htw2
  | cons tweet2 rest2 =>
  have htw2mem : tweet2 ∈ db.tweets.filter (fun t => t.id == t2 && t.userId == ub.id) := by
    rw [h2]; exact List.mem_cons_self _ _
  have htid2 : tweet2.id = t2 := by
    have hp := (List.mem_filter.mp htw2mem).2
    rw [Bool.and_eq_true] at hp
    exact beq_iff_eq.mp hp.1
  have hq2 : TweetRepository.filter (TweetRepository.delete db tweet1)
      (fun t => t.id == t2 && t.userId == ub.id) false none none = tweet2 :: rest2 := by
    show (TweetRepository.delete db tweet1).tweets.filter
        (fun t => t.id == t2 && t.userId == ub.id) = tweet2 :: rest2
    rw [htwf2, h2]
  have hptm2 : ∀ v : TweetMediaRow,
      ((v.tweetId == t2) && (v.tweetId != tweet1.id)) = (v.tweetId == t2) := by
    intro v
    rw [htid1]
    by_cases hv : v.tweetId = t2
    · have hb : (v.tweetId != t1) = true := bne_iff_ne.mpr (by rw [hv]; exact Ne.symm hne)
      rw [hb, Bool.and_true]
    · have hb : (v.tweetId == t2) = false := beq_eq_false_iff_ne.mpr hv
      rw [hb, Bool.false_and]
  have hmf2 : ((TweetRepository.delete db tweet1).tweetMedia.filter
      (fun tm => tm.tweetId == tweet2.id)).map
      (fun tm => (tm, (TweetRepository.delete db tweet1).media.find?
        (fun n => n.id == tm.mediaId))) = [(tm2, some m)] := by
    show ((db.tweetMedia.filter (fun w => w.tweetId != tweet1.id)).filter
        (fun tm => tm.tweetId == tweet2.id)).map
        (fun tm => (tm, db.media.find? (fun n => n.id == tm.mediaId))) = _
    rw [htid2, List.filter_filter, List.filter_congr (fun v _ => hptm2 v), hlinks2,
      List.map_cons, List.map_nil, htm2, find?_eq_head?_filter, hmedia]
    rfl
  have hrem2 : TweetMediaRepository.filter
      (TweetRepository.delete (TweetRepository.delete db tweet1) tweet2)
      (fun v => v.mediaId == tm2.mediaId) = none := by
    unfold TweetMediaRepository.filter
    have hnil : (TweetRepository.delete (TweetRepository.delete db tweet1)
        tweet2).tweetMedia.filter (fun v => v.mediaId == tm2.mediaId) = [] := by
      rw [List.filter_eq_nil_iff]
      intro v hv
      have hv2 : v ∈ (db.tweetMedia.filter (fun w => w.tweetId != tweet1.id)).filter
          (fun w => w.tweetId != tweet2.id) := hv
      have hvm := List.mem_filter.mp hv2
      have hvm2 := List.mem_filter.mp hvm.1
      intro hpv
      have hvid : v.mediaId = m.id := by rw [beq_iff_eq.mp hpv, htm2]
      rcases honly v hvm2.1 hvid with h | h
      · have hb := hvm2.2
        rw [h, htm1tid, htid1] at hb
        simp at hb
      · have hb := hvm.2
        rw [h, htm2tid, htid2] at hb
        simp at hb
    rw [hnil]
    rfl
  have hr2 : TweetServices.del_tweet upl (TweetRepository.delete db tweet1) ub t2 =
      { db := MediaRepository.delete
          { TweetRepository.delete (TweetRepository.delete db tweet1) tweet2 with
            files := (TweetRepository.delete (TweetRepository.delete db tweet1)
              tweet2).files.filter
              (fun q => q != osPathJoin upl (basename m.filePath)) } m,
        result := Except.ok () } := by
    unfold TweetServices.del_tweet
    rw [hq2]
    show TweetServices.cleanupMedia upl
        (TweetRepository.delete (TweetRepository.delete db tweet1) tweet2)
        (((TweetRepository.delete db tweet1).tweetMedia.filter
          (fun tm => tm.tweetId == tweet2.id)).map
          (fun tm => (tm, (TweetRepository.delete db tweet1).media.find?
            (fun n => n.id == tm.mediaId)))) = _
    rw [hmf2]
    unfold TweetServices.cleanupMedia
    rw [hrem2]
    have hcont : (TweetRepository.delete (TweetRepository.delete db tweet1)
        tweet2).files.contains (osPathJoin upl (basename m.filePath)) = true := hfile
    simp only [hcont, if_true]
    rfl
  refine ⟨?_, ?_, ?_, ?_, ?_, ?_⟩
  · rw [hr1]
  · rw [hr1]; exact hmedia
  · rw [hr1]; exact hfile
  · rw [hr1, hr2]
  · rw [hr1, hr2]
    show (db.media.filter (fun n => n.id != m.id)).filter (fun n => n.id == m.id) = []
    rw [List.filter_filter, List.filter_eq_nil_iff]
    intro a _
    by_cases h : a.id = m.id <;> simp [h]
  · rw [hr1, hr2]
    show (db.files.filter
      (fun q => q != osPathJoin upl (basename m.filePath))).contains
        (osPathJoin upl (basename m.filePath)) = false
    have hnm : osPathJoin upl (basename m.filePath) ∉ db.files.filter
        (fun q => q != osPathJoin upl (basename m.filePath)) := by
      intro hmem
      have hb := (List.mem_filter.mp hmem).2
      simp at hb
    simp [List.contains, hnm]

/-- Witness for C1 at `dbW`: tweets 1 and 2 both reference media 7; alice
deletes tweet 1 (media row and file survive), then bob deletes tweet 2
(media row and file are reclaimed). -/
theorem C1_media_reclamation_witness :
    (TweetServices.del_tweet "up" dbW alice 1).result = Except.ok () ∧
    (TweetServices.del_tweet "up" dbW alice 1).db.media.filter
      (fun n => n.id == (⟨7, "/api/medias/a.jpg", 1⟩ : MediaRow).id) =
      [⟨7, "/api/medias/a.jpg", 1⟩] ∧
    (TweetServices.del_tweet "up" dbW alice 1).db.files.contains
      (osPathJoin "up" (basename (⟨7, "/api/medias/a.jpg", 1⟩ : MediaRow).filePath)) = true ∧
    (TweetServices.del_tweet "up"
      (TweetServices.del_tweet "up" dbW alice 1).db bobU 2).result = Except.ok () ∧
    (TweetServices.del_tweet "up"
      (TweetServices.del_tweet "up" dbW alice 1).db bobU 2).db.media.filter
      (fun n => n.id == (⟨7, "/api/medias/a.jpg", 1⟩ : MediaRow).id) = [] ∧
    (TweetServices.del_tweet "up"
      (TweetServices.del_tweet "up" dbW alice 1).db bobU 2).db.files.contains
      (osPathJoin "up" (basename (⟨7, "/api/medias/a.jpg", 1⟩ : MediaRow).filePath)) = false :=
  C1_media_reclamation "up" dbW alice bobU 1 2 ⟨7, "/api/medias/a.jpg", 1⟩ ⟨1, 1, 7⟩ ⟨2, 2, 7⟩
    (by decide) (by decide) (by decide) (by decide) (by decide) (by decide) (by decide)
    (by decide) (by decide) (by decide)

end MyX
